import Mathlib

/-!
Shallow embedding of the pose-detection web application
(`src/pose-detection-app/src/components/PoseDetection.tsx`).

The component's data and logic are translated into executable Lean
definitions: keypoints and poses carry rational coordinates and optional
confidence scores; the per-frame drawing pass is a pure function from the
video state, the estimator's poses and the canvas-context state to a list
of draw commands plus the successor context state; permission handling,
error mapping, retry and rendering are pure functions on the component's
error state.
-/

namespace PoseApp

/-- A named landmark as returned by the estimator: name, pixel coordinates,
optional confidence score (`score?: number` in the source). -/
structure Keypoint where
  name : String
  x : ℚ
  y : ℚ
  score : Option ℚ
deriving DecidableEq, Repr

/-- One detected person's keypoints for one frame. -/
structure Pose where
  keypoints : List Keypoint
deriving DecidableEq, Repr

/-- `pose.keypoints.find(kp => kp.name === n)`: first keypoint with the
given name, if any. -/
def findKp (kps : List Keypoint) (n : String) : Option Keypoint :=
  kps.find? (fun kp => kp.name == n)

/-- `isPerfectAngle` (PoseDetection.tsx lines 31-43): locate the two
shoulders and the two hips by name; when all four are found, the verdict is
`|Δy(shoulders)| < 20 && |Δy(hips)| < 20`; otherwise `false`. -/
def isPerfectAngle (pose : Pose) : Bool :=
  match findKp pose.keypoints "left_shoulder", findKp pose.keypoints "right_shoulder",
        findKp pose.keypoints "left_hip", findKp pose.keypoints "right_hip" with
  | some leftShoulder, some rightShoulder, some leftHip, some rightHip =>
      let shoulderDiff := |leftShoulder.y - rightShoulder.y|
      let hipDiff := |leftHip.y - rightHip.y|
      decide (shoulderDiff < 20) && decide (hipDiff < 20)
  | _, _, _, _ => false

/-- Fallback message of `handleError`. -/
def genericCameraMsg : String := "An error occurred while accessing the camera."

/-- `handleError` (lines 12-29), on the error's `name` property: the six
named conditions get fixed messages, anything else the generic fallback. -/
def handleError (n : String) : String :=
  if n = "NotAllowedError" then
    "Camera access was denied. Please allow camera access and try again."
  else if n = "NotFoundError" then
    "No camera device found. Please ensure a camera is connected and try again."
  else if n = "AbortError" then
    "The fetching process for the media resource was aborted. Please try again."
  else if n = "NotReadableError" then
    "The media device is not readable. Please check your camera and try again."
  else if n = "OverconstrainedError" then
    "The constraints specified are not supported by the device. Please check your camera settings and try again."
  else if n = "SecurityError" then
    "Security error while accessing the camera. Please check your browser settings and try again."
  else genericCameraMsg

/-- The six error names `handleError` singles out. -/
def sixErrorNames : List String :=
  ["NotAllowedError", "NotFoundError", "AbortError",
   "NotReadableError", "OverconstrainedError", "SecurityError"]

/-- Render color chosen per pose: green when the verdict holds, red otherwise. -/
inductive Color where
  | green
  | red
deriving DecidableEq, Repr

/-- `const color = isPerfect ? 'green' : 'red'` (line 85). -/
def poseColor (pose : Pose) : Color :=
  if isPerfectAngle pose then Color.green else Color.red

/-- The drawing-confidence test `kp.score !== undefined && kp.score > 0.5`
(lines 89 and 114). -/
def scoreOver (kp : Keypoint) : Bool :=
  match kp.score with
  | some s => decide ((1 : ℚ)/2 < s)
  | none => false

/-- One primitive drawing operation issued to the canvas context. -/
inductive DrawCmd where
  | clearRect (w h : ℚ)
  | circle (x y r : ℚ) (color : Color)
  | line (x1 y1 x2 y2 w : ℚ) (color : Color)
deriving DecidableEq, Repr

/-- `drawLine` (lines 62-69): a straight stroke of width 2 between the two
keypoints in the given color. -/
def drawLine (f t : Keypoint) (color : Color) : DrawCmd :=
  DrawCmd.line f.x f.y t.x t.y 2 color

/-- The keypoint loop (lines 88-95): for each keypoint passing the
confidence test, a filled circle of radius 5 at its coordinates. -/
def drawKeypoints (color : Color) (kps : List Keypoint) : List DrawCmd :=
  kps.filterMap (fun kp =>
    if scoreOver kp then some (DrawCmd.circle kp.x kp.y 5 color) else none)

/-- `keypointPairs` (lines 98-109): the configured skeleton edges. -/
def keypointPairs : List (String × String) :=
  [("left_shoulder", "right_shoulder"),
   ("left_hip", "right_hip"),
   ("left_shoulder", "left_elbow"),
   ("left_elbow", "left_wrist"),
   ("right_shoulder", "right_elbow"),
   ("right_elbow", "right_wrist"),
   ("left_hip", "left_knee"),
   ("left_knee", "left_ankle"),
   ("right_hip", "right_knee"),
   ("right_knee", "right_ankle")]

/-- The edge loop body (lines 111-117): look both endpoints up by name and
draw the connecting line when both are found and both pass the confidence
test. -/
def drawEdge (color : Color) (kps : List Keypoint) (pr : String × String) :
    List DrawCmd :=
  match findKp kps pr.1, findKp kps pr.2 with
  | some f, some t =>
      if scoreOver f && scoreOver t then [drawLine f t color] else []
  | _, _ => []

/-- The edge loop over all configured pairs. -/
def drawEdges (color : Color) (kps : List Keypoint) : List DrawCmd :=
  keypointPairs.flatMap (drawEdge color kps)

/-- Per-pose rendering (lines 83-118): choose the color from the verdict,
then dots, then edges. -/
def drawPose (pose : Pose) : List DrawCmd :=
  let color := poseColor pose
  drawKeypoints color pose.keypoints ++ drawEdges color pose.keypoints

/-- A 2D affine transform of the canvas context, as the matrix
`[[a, c, e], [b, d, f]]` mapping `(x, y)` to `(a*x + c*y + e, b*x + d*y + f)`. -/
structure Transform where
  a : ℚ
  b : ℚ
  c : ℚ
  d : ℚ
  e : ℚ
  f : ℚ
deriving DecidableEq, Repr

/-- The identity transform. -/
def idTransform : Transform := ⟨1, 0, 0, 1, 0, 0⟩

/-- Matrix composition: `t.comp u` applies `u` first in matrix terms
(the canvas multiplies new transforms on the right). -/
def Transform.comp (t u : Transform) : Transform :=
  ⟨t.a * u.a + t.c * u.b, t.b * u.a + t.d * u.b,
   t.a * u.c + t.c * u.d, t.b * u.c + t.d * u.d,
   t.a * u.e + t.c * u.f + t.e, t.b * u.e + t.d * u.f + t.f⟩

/-- The scaling matrix of `ctx.scale(sx, sy)`. -/
def scaleT (sx sy : ℚ) : Transform := ⟨sx, 0, 0, sy, 0, 0⟩

/-- The translation matrix of `ctx.translate(tx, ty)`. -/
def translateT (tx ty : ℚ) : Transform := ⟨1, 0, 0, 1, tx, ty⟩

/-- The canvas and its 2D context as the drawing loop sees them: the
canvas dimensions, the context's current transform, and the saved-state
stack maintained by `ctx.save()` / `ctx.restore()`. -/
structure Surface where
  width : ℚ
  height : ℚ
  transform : Transform
  stack : List Transform
deriving DecidableEq, Repr

/-- `ctx.save()`: push the current transform. -/
def Surface.save (s : Surface) : Surface :=
  { s with stack := s.transform :: s.stack }

/-- `ctx.restore()`: pop the stack into the current transform; a no-op on
an empty stack. -/
def Surface.restore (s : Surface) : Surface :=
  match s.stack with
  | [] => s
  | t :: ts => { s with transform := t, stack := ts }

/-- `ctx.scale(sx, sy)`. -/
def Surface.scale (s : Surface) (sx sy : ℚ) : Surface :=
  { s with transform := s.transform.comp (scaleT sx sy) }

/-- `ctx.translate(tx, ty)`. -/
def Surface.translate (s : Surface) (tx ty : ℚ) : Surface :=
  { s with transform := s.transform.comp (translateT tx ty) }

/-- What one call of `detectPose` (lines 71-124) produces: the successor
canvas/context state, the draw commands issued, and whether
`requestAnimationFrame(detectPose)` was called to schedule the next tick. -/
structure TickResult where
  surface : Surface
  cmds : List DrawCmd
  scheduledNext : Bool
deriving DecidableEq, Repr

/-- One tick of `detectPose`: when `video.readyState === 4`, resize the
canvas to the video dimensions, save the context, apply the horizontal
mirror (`scale(-1, 1)` then `translate(-canvas.width, 0)`), clear, draw
every pose, restore the context, and schedule the next tick; otherwise do
nothing at all (in the source the `requestAnimationFrame` call sits inside
the `readyState` branch). -/
def tick (readyState : Nat) (videoWidth videoHeight : ℚ) (poses : List Pose)
    (s : Surface) : TickResult :=
  if readyState = 4 then
    let s1 : Surface := { s with width := videoWidth, height := videoHeight }
    let s2 := ((s1.save).scale (-1) 1).translate (-videoWidth) 0
    let cmds := DrawCmd.clearRect videoWidth videoHeight :: poses.flatMap drawPose
    { surface := s2.restore, cmds := cmds, scheduledNext := true }
  else
    { surface := s, cmds := [], scheduledNext := false }

/-- The externally visible initialization actions the component performs,
in the order the source performs them. -/
inductive Step where
  | queryPermission
  | getUserMediaProbe
  | stopProbeTracks
  | setBackendWebgl
  | tfReady
  | createDetector
  | getUserMediaCapture
  | playVideo
  | startLoop
deriving DecidableEq, Repr

/-- `startVideoStream` (lines 45-131) on its happy path: acquire the video
stream, play it, and start the `detectPose` loop. -/
def startVideoStreamTrace : List Step :=
  [Step.getUserMediaCapture, Step.playVideo, Step.startLoop]

/-- `loadModel` (lines 133-144) on its happy path: set the webgl backend,
wait for readiness, create the detector, then run `startVideoStream`. -/
def loadModelTrace : List Step :=
  [Step.setBackendWebgl, Step.tfReady, Step.createDetector] ++ startVideoStreamTrace

/-- `retry` (lines 169-172): `setError(null); loadModel();` — the error
state is cleared and `loadModel` runs, whatever the previous error was. -/
def retry (_err : Option String) : Option String × List Step :=
  (none, loadModelTrace)

/-- The camera permission states the mount effect distinguishes. -/
inductive PermState where
  | granted
  | prompt
  | denied
deriving DecidableEq, Repr

/-- The fixed denial message set by the mount effect (line 161). -/
def deniedMsg : String :=
  "Camera access is denied. Please enable camera permissions in your browser settings."

/-- The message set when the permission query itself fails (line 165). -/
def permCheckFailMsg : String :=
  "Unable to check camera permissions. Please try again."

/-- The mount effect (lines 146-167). `query` is the result of
`navigator.permissions.query` (`none` when it throws); `probe` is the
result of the permission-prompting `getUserMedia` call, with a failing
call carrying the error's name. Returns the error state set and the trace
of steps taken. -/
def mountGate (query : Option PermState) (probe : Except String Unit) :
    Option String × List Step :=
  match query with
  | none => (some permCheckFailMsg, [Step.queryPermission])
  | some PermState.granted => (none, Step.queryPermission :: loadModelTrace)
  | some PermState.prompt =>
      match probe with
      | Except.ok _ =>
          (none, Step.queryPermission :: Step.getUserMediaProbe ::
            Step.stopProbeTracks :: loadModelTrace)
      | Except.error e =>
          (some (handleError e), [Step.queryPermission, Step.getUserMediaProbe])
  | some PermState.denied => (some deniedMsg, [Step.queryPermission])

/-- What the component renders (lines 174-189) as a function of the error
state: the banner text and Retry button when an error is set; the video
element, whose `display` is `none` exactly when an error is set; and the
canvas element, which carries no `display` condition at all. -/
structure View where
  bannerText : Option String
  retryButton : Bool
  videoShown : Bool
  canvasShown : Bool
deriving DecidableEq, Repr

/-- The component's render as a function of the error state. -/
def render (err : Option String) : View :=
  { bannerText := err
    retryButton := err.isSome
    videoShown := err.isNone
    canvasShown := true }

/-- Replace the score of every keypoint named `n` (a spec-side operator
used to state what lowering one keypoint's confidence does). -/
def setScoreByName (n : String) (v : Option ℚ) (kps : List Keypoint) :
    List Keypoint :=
  kps.map (fun kp => if kp.name = n then { kp with score := v } else kp)

/-- Remove every keypoint named `n` (a spec-side operator used to state
what removing a keypoint does). -/
def removeByName (n : String) (kps : List Keypoint) : List Keypoint :=
  kps.filter (fun kp => decide (kp.name ≠ n))

/-- Rewrite every keypoint's score by `f`, keeping names and coordinates
(a spec-side operator: the verdict never reads scores). -/
def mapScores (f : Option ℚ → Option ℚ) (pose : Pose) : Pose :=
  ⟨pose.keypoints.map (fun kp => { kp with score := f kp.score })⟩

/-- A concrete pose fragment: two shoulders and one left elbow, all with
confidence 0.9. -/
def cexKeypoints : List Keypoint :=
  [⟨"left_shoulder", 100, 100, some (9/10)⟩,
   ⟨"right_shoulder", 200, 105, some (9/10)⟩,
   ⟨"left_elbow", 150, 150, some (9/10)⟩]

/-- `cexKeypoints` with the left shoulder's confidence lowered to 0.5. -/
def lowCexKeypoints : List Keypoint :=
  setScoreByName "left_shoulder" (some (1/2)) cexKeypoints

/-- A pose whose four required keypoints are aligned but all carry
confidence 0.3, below the drawing threshold. -/
def lowConfPose : Pose :=
  ⟨[⟨"left_shoulder", 100, 100, some (3/10)⟩,
    ⟨"right_shoulder", 200, 105, some (3/10)⟩,
    ⟨"left_hip", 110, 200, some (3/10)⟩,
    ⟨"right_hip", 190, 210, some (3/10)⟩]⟩

/-- A pose with the left hip missing entirely and the shoulders aligned. -/
def noLeftHipPose : Pose :=
  ⟨[⟨"left_shoulder", 100, 100, some (9/10)⟩,
    ⟨"right_shoulder", 200, 105, some (9/10)⟩,
    ⟨"right_hip", 190, 210, some (9/10)⟩]⟩

/-- A fresh canvas state: zero-sized, identity transform, empty stack. -/
def surface0 : Surface := ⟨0, 0, idTransform, []⟩

end PoseApp

namespace PoseApp

/-- C1: the verdict is true iff all four named keypoints are found and both
vertical differences are under 20. -/
theorem alignment_verdict_iff (pose : Pose) :
    (isPerfectAngle pose = true ↔
      ∃ ls rs lh rh : Keypoint,
        findKp pose.keypoints "left_shoulder" = some ls ∧
        findKp pose.keypoints "right_shoulder" = some rs ∧
        findKp pose.keypoints "left_hip" = some lh ∧
        findKp pose.keypoints "right_hip" = some rh ∧
        |ls.y - rs.y| < 20 ∧ |lh.y - rh.y| < 20) ∧
    ((findKp pose.keypoints "left_shoulder" = none ∨
      findKp pose.keypoints "right_shoulder" = none ∨
      findKp pose.keypoints "left_hip" = none ∨
      findKp pose.keypoints "right_hip" = none) →
      isPerfectAngle pose = false) := by
  unfold isPerfectAngle
  rcases hls : findKp pose.keypoints "left_shoulder" with _ | ls <;>
  rcases hrs : findKp pose.keypoints "right_shoulder" with _ | rs <;>
  rcases hlh : findKp pose.keypoints "left_hip" with _ | lh <;>
  rcases hrh : findKp pose.keypoints "right_hip" with _ | rh <;>
  simp_all

/-- `find?` over a cons, as an `if`. -/
theorem find?_cons_eq {α : Type} (p : α → Bool) (a : α) (l : List α) :
    (a :: l).find? p = if p a then some a else l.find? p := by
  cases h : p a <;> simp [List.find?, h]

/-- Replacing scores of keypoints named `n` does not change the lookup of a
different name. -/
theorem findKp_setScoreByName_ne (n m : String) (v : Option ℚ)
    (kps : List Keypoint) (h : m ≠ n) :
    findKp (setScoreByName n v kps) m = findKp kps m := by
  unfold findKp setScoreByName
  rw [List.find?_map]
  have hpred : ((fun kp : Keypoint => kp.name == m) ∘
      (fun kp : Keypoint => if kp.name = n then { kp with score := v } else kp)) =
      (fun kp : Keypoint => kp.name == m) := by
    funext kp
    by_cases hn : kp.name = n <;> simp [Function.comp, hn]
  rw [hpred]
  cases hf : kps.find? (fun kp => kp.name == m) with
  | none => rfl
  | some kf =>
    have hp := List.find?_some hf
    have hname : kf.name = m := by simpa using hp
    have hne : ¬ kf.name = n := by rw [hname]; exact h
    simp [Option.map, if_neg hne]

/-- Removing keypoints named `n` does not change the lookup of a different
name. -/
theorem findKp_removeByName_ne (n m : String) (kps : List Keypoint)
    (h : m ≠ n) :
    findKp (removeByName n kps) m = findKp kps m := by
  unfold findKp removeByName
  induction kps with
  | nil => rfl
  | cons kp kps ih =>
    rw [List.filter_cons]
    by_cases hn : kp.name = n
    · have hd : (decide (kp.name ≠ n)) = false := by simp [hn]
      have hm : (kp.name == m) = false := by
        refine beq_eq_false_iff_ne.mpr ?_
        rw [hn]
        exact fun e => h e.symm
      rw [hd, find?_cons_eq, hm]
      simpa using ih
    · have hd : (decide (kp.name ≠ n)) = true := by simp [hn]
      rw [hd]
      simp only [if_true]
      rw [find?_cons_eq, find?_cons_eq]
      cases hm : (kp.name == m)
      · simpa using ih
      · simp

/-- `findKp` commutes with a score-only rewrite of every keypoint. -/
theorem findKp_mapScores (f : Option ℚ → Option ℚ) (kps : List Keypoint)
    (n : String) :
    findKp (kps.map (fun kp => { kp with score := f kp.score })) n =
      (findKp kps n).map (fun kp => { kp with score := f kp.score }) := by
  unfold findKp
  rw [List.find?_map]
  rfl

/-- Membership of a differently-named keypoint is untouched by a score
replacement. -/
theorem mem_setScoreByName_of_name_ne (n : String) (v : Option ℚ)
    (kps : List Keypoint) (kp : Keypoint) (h : kp.name ≠ n) :
    kp ∈ setScoreByName n v kps ↔ kp ∈ kps := by
  unfold setScoreByName
  constructor
  · intro hm
    rcases List.mem_map.mp hm with ⟨a, ha, hga⟩
    by_cases han : a.name = n
    · exfalso
      apply h
      rw [← hga, if_pos han]
      exact han
    · rw [if_neg han] at hga
      exact hga ▸ ha
  · intro hm
    have : (if kp.name = n then { kp with score := v } else kp) = kp := if_neg h
    rw [← this]
    exact List.mem_map_of_mem _ hm

/-- Membership of a differently-named keypoint is untouched by removal. -/
theorem mem_removeByName_of_name_ne (n : String) (kps : List Keypoint)
    (kp : Keypoint) (h : kp.name ≠ n) :
    kp ∈ removeByName n kps ↔ kp ∈ kps := by
  unfold removeByName
  rw [List.mem_filter]
  simp [h]

/-- The dot pass draws exactly the keypoints passing the confidence test. -/
theorem drawKeypoints_eq_filter (color : Color) (kps : List Keypoint) :
    drawKeypoints color kps =
      (kps.filter scoreOver).map (fun kp => DrawCmd.circle kp.x kp.y 5 color) := by
  induction kps with
  | nil => rfl
  | cons kp kps ih =>
    unfold drawKeypoints at *
    rw [List.filterMap_cons, List.filter_cons]
    cases h : scoreOver kp with
    | false => simp [h, ih]
    | true => simp [h, ih]

/-- The confidence test in claim terms. -/
theorem scoreOver_iff (kp : Keypoint) :
    scoreOver kp = true ↔ ∃ s : ℚ, kp.score = some s ∧ (1 : ℚ)/2 < s := by
  unfold scoreOver
  cases hs : kp.score <;> simp [hs]

/-- C6: the six named capture-error conditions map to pairwise distinct
messages, all distinct from the generic fallback, and every other error
name maps to the generic fallback. -/
theorem capture_error_taxonomy :
    (sixErrorNames.map handleError ++ [genericCameraMsg]).Nodup ∧
    ∀ n : String, n ∉ sixErrorNames → handleError n = genericCameraMsg := by
  constructor
  · decide
  · intro n hn
    simp only [sixErrorNames, List.mem_cons, List.not_mem_nil, or_false,
      not_or] at hn
    obtain ⟨h1, h2, h3, h4, h5, h6⟩ := hn
    simp [handleError, h1, h2, h3, h4, h5, h6]

/-- C2: in the per-pose dot pass, a keypoint yields a filled circle of
radius 5 in the pose's chosen color iff its confidence score is strictly
over 0.5; a score of exactly 0.5 fails the test; the pose's keypoint
collection itself is left untouched (filtering selects from it). -/
theorem keypoint_dot_threshold (pose : Pose) :
    (drawKeypoints (poseColor pose) pose.keypoints =
      (pose.keypoints.filter scoreOver).map
        (fun kp => DrawCmd.circle kp.x kp.y 5 (poseColor pose))) ∧
    (∀ kp : Keypoint, kp ∈ pose.keypoints.filter scoreOver ↔
      kp ∈ pose.keypoints ∧ ∃ s : ℚ, kp.score = some s ∧ (1 : ℚ)/2 < s) ∧
    (∀ kp : Keypoint, kp.score = some ((1 : ℚ)/2) → scoreOver kp = false) := by
  refine ⟨drawKeypoints_eq_filter _ _, fun kp => ?_, fun kp h => ?_⟩
  · rw [List.mem_filter, scoreOver_iff]
  · unfold scoreOver
    rw [h]
    simp

/-- C3 (amended): an edge's line of width 2 in the chosen color is emitted
iff both named endpoints are found and both pass the confidence test;
modifying (re-scoring or removing) keypoints of a name that is not an
endpoint of the edge leaves the edge unchanged, and dots of
differently-named keypoints survive any such modification — but edges
incident to the modified name and that keypoint's own dot are affected,
not "that edge only". -/
theorem edge_line_threshold (color : Color) (kps : List Keypoint)
    (pr : String × String) (n : String) (v : Option ℚ) :
    (drawEdge color kps pr ≠ [] ↔
      ∃ f t : Keypoint, findKp kps pr.1 = some f ∧ findKp kps pr.2 = some t ∧
        scoreOver f = true ∧ scoreOver t = true ∧
        drawEdge color kps pr = [DrawCmd.line f.x f.y t.x t.y 2 color]) ∧
    (pr.1 ≠ n ∧ pr.2 ≠ n →
      drawEdge color (setScoreByName n v kps) pr = drawEdge color kps pr ∧
      drawEdge color (removeByName n kps) pr = drawEdge color kps pr) ∧
    (∀ kp : Keypoint, kp.name ≠ n →
      (kp ∈ (setScoreByName n v kps).filter scoreOver ↔
        kp ∈ kps.filter scoreOver) ∧
      (kp ∈ (removeByName n kps).filter scoreOver ↔
        kp ∈ kps.filter scoreOver)) := by
  refine ⟨?_, ?_, ?_⟩
  · unfold drawEdge
    cases hf : findKp kps pr.1 with
    | none => simp [hf]
    | some f =>
      cases ht : findKp kps pr.2 with
      | none => simp [hf, ht]
      | some t =>
        cases hsf : scoreOver f <;> cases hst : scoreOver t <;>
          simp [hf, ht, hsf, hst, drawLine]
  · rintro ⟨h1, h2⟩
    constructor
    · unfold drawEdge
      rw [findKp_setScoreByName_ne n pr.1 v kps h1,
          findKp_setScoreByName_ne n pr.2 v kps h2]
    · unfold drawEdge
      rw [findKp_removeByName_ne n pr.1 kps h1,
          findKp_removeByName_ne n pr.2 kps h2]
  · intro kp hkp
    constructor
    · rw [List.mem_filter, List.mem_filter,
          mem_setScoreByName_of_name_ne n v kps kp hkp]
    · rw [List.mem_filter, List.mem_filter,
          mem_removeByName_of_name_ne n kps kp hkp]

/-- C3 counterexample: lowering the left shoulder's confidence to 0.5 (an
endpoint of the shoulder-shoulder edge) also suppresses the
shoulder-elbow edge and the left shoulder's own dot, contradicting
"suppresses that edge only, leaving the other edges and dots
unaffected". -/
theorem edge_suppression_cex :
    drawEdge Color.red cexKeypoints ("left_shoulder", "left_elbow") ≠ [] ∧
    drawEdge Color.red lowCexKeypoints ("left_shoulder", "left_elbow") = [] ∧
    drawKeypoints Color.red lowCexKeypoints ≠
      drawKeypoints Color.red cexKeypoints := by
  have hfa : findKp cexKeypoints "left_shoulder" =
      some ⟨"left_shoulder", 100, 100, some (9/10)⟩ := rfl
  have hfb : findKp cexKeypoints "left_elbow" =
      some ⟨"left_elbow", 150, 150, some (9/10)⟩ := rfl
  have hlow : lowCexKeypoints =
      [⟨"left_shoulder", 100, 100, some (1/2)⟩,
       ⟨"right_shoulder", 200, 105, some (9/10)⟩,
       ⟨"left_elbow", 150, 150, some (9/10)⟩] := rfl
  have hga : findKp lowCexKeypoints "left_shoulder" =
      some ⟨"left_shoulder", 100, 100, some (1/2)⟩ := rfl
  have hgb : findKp lowCexKeypoints "left_elbow" =
      some ⟨"left_elbow", 150, 150, some (9/10)⟩ := rfl
  refine ⟨?_, ?_, ?_⟩
  · norm_num [drawEdge, hfa, hfb, scoreOver, drawLine]
  · norm_num [drawEdge, hga, hgb, scoreOver]
  · have e1 : drawKeypoints Color.red lowCexKeypoints =
        [DrawCmd.circle 200 105 5 Color.red,
         DrawCmd.circle 150 150 5 Color.red] := by
      rw [hlow]
      norm_num [drawKeypoints, List.filterMap, scoreOver]
    have e2 : drawKeypoints Color.red cexKeypoints =
        [DrawCmd.circle 100 100 5 Color.red,
         DrawCmd.circle 200 105 5 Color.red,
         DrawCmd.circle 150 150 5 Color.red] := by
      norm_num [drawKeypoints, cexKeypoints, List.filterMap, scoreOver]
    rw [e1, e2]
    intro h
    have := congrArg List.length h
    simp at this

/-- C4 (amended): a tick whose video source is not ready draws nothing and
changes no state, and does NOT schedule a next tick — the
`requestAnimationFrame` call sits inside the readiness branch, so the loop
halts. -/
theorem skip_tick_halts (w h : ℚ) (poses : List Pose) (s : Surface)
    (rs : Nat) (hrs : rs ≠ 4) :
    tick rs w h poses s = ⟨s, [], false⟩ := by
  unfold tick
  rw [if_neg hrs]

/-- Witness for C4's theorem at readyState 3. -/
theorem skip_tick_halts_witness :
    tick 3 640 480 [] surface0 = ⟨surface0, [], false⟩ :=
  skip_tick_halts 640 480 [] surface0 3 (by decide)

/-- C4 counterexample: at readyState 3 the claim predicts the next tick is
still scheduled; the code does not schedule it. -/
theorem skip_tick_cex :
    (tick 3 640 480 [] surface0).scheduledNext = false := rfl

/-- C5 (amended): Retry clears the error text and always runs the same
sequence whatever the previous error was — but that sequence is model
load (backend, readiness, detector), then capture, then loop start; the
permission check is not re-run. -/
theorem retry_sequence (m m' : Option String) :
    (retry m).1 = none ∧
    (retry m).2 = (retry m').2 ∧
    (retry m).2 = [Step.setBackendWebgl, Step.tfReady, Step.createDetector,
      Step.getUserMediaCapture, Step.playVideo, Step.startLoop] ∧
    Step.queryPermission ∉ (retry m).2 := by
  refine ⟨rfl, rfl, rfl, ?_⟩
  show Step.queryPermission ∉ loadModelTrace
  decide

/-- C5 counterexample: after the generic camera error, Retry's sequence
contains no permission check, although the claim says the full sequence —
permission check first — is re-run. -/
theorem retry_cex :
    Step.queryPermission ∉ (retry (some genericCameraMsg)).2 := by
  decide

/-- C7: the three permission outcomes — granted proceeds straight to
`loadModel`; prompt requests camera access and, on success, stops the
probing stream's tracks before proceeding; denied sets the fixed denial
message and goes no further (no automatic retry) — and a throwing
permission query sets the distinct generic unable-to-check message. -/
theorem permission_gate_outcomes :
    (∀ probe : Except String Unit,
      mountGate (some PermState.granted) probe =
        (none, Step.queryPermission :: loadModelTrace)) ∧
    (mountGate (some PermState.prompt) (Except.ok ()) =
      (none, Step.queryPermission :: Step.getUserMediaProbe ::
        Step.stopProbeTracks :: loadModelTrace)) ∧
    (∀ probe : Except String Unit,
      mountGate (some PermState.denied) probe =
        (some deniedMsg, [Step.queryPermission])) ∧
    (∀ probe : Except String Unit,
      Step.startLoop ∉ (mountGate (some PermState.denied) probe).2) ∧
    (∀ probe : Except String Unit,
      mountGate none probe = (some permCheckFailMsg, [Step.queryPermission])) ∧
    permCheckFailMsg ≠ deniedMsg := by
  refine ⟨fun probe => rfl, rfl, fun probe => rfl, fun probe => ?_,
    fun probe => rfl, ?_⟩
  · show Step.startLoop ∉ [Step.queryPermission]
    decide
  · decide

/-- C8: every tick leaves the context transform and save-stack exactly as
it found them (the mirror transform is undone by the final restore), so a
transform that is the identity at the start of a tick is the identity at
the start of the next. -/
theorem mirror_transform_restored (rs : Nat) (w h : ℚ) (poses : List Pose)
    (s : Surface) :
    ((tick rs w h poses s).surface.transform = s.transform ∧
     (tick rs w h poses s).surface.stack = s.stack) ∧
    (s.transform = idTransform →
      (tick rs w h poses s).surface.transform = idTransform) := by
  have key : (tick rs w h poses s).surface.transform = s.transform ∧
      (tick rs w h poses s).surface.stack = s.stack := by
    unfold tick
    by_cases hrs : rs = 4
    · rw [if_pos hrs]
      exact ⟨rfl, rfl⟩
    · rw [if_neg hrs]
      exact ⟨rfl, rfl⟩
  exact ⟨key, fun hid => key.1.trans hid⟩

/-- C9 (amended): when the permission query resolves to denied, the banner
shows the fixed denial message, the Retry button is present, the video is
hidden — but the canvas element is rendered unconditionally, not hidden. -/
theorem denied_render_view (probe : Except String Unit) :
    render (mountGate (some PermState.denied) probe).1 =
      { bannerText := some deniedMsg
        retryButton := true
        videoShown := false
        canvasShown := true } := rfl

/-- C9 counterexample: in the denied state the canvas is still rendered,
although the claim says neither the video nor the canvas is shown. -/
theorem denied_canvas_cex :
    (render (mountGate (some PermState.denied) (Except.ok ())).1).canvasShown
      = true := rfl

/-- C10: the verdict never reads confidence scores — any rewrite of every
keypoint's score leaves it unchanged — and a pose whose four required
keypoints are aligned but all carry confidence 0.3 (none drawable) still
gets a true verdict and the green color. -/
theorem verdict_ignores_confidence :
    (∀ (f : Option ℚ → Option ℚ) (pose : Pose),
      isPerfectAngle (mapScores f pose) = isPerfectAngle pose) ∧
    isPerfectAngle lowConfPose = true ∧
    poseColor lowConfPose = Color.green ∧
    lowConfPose.keypoints.all (fun kp => !(scoreOver kp)) = true ∧
    drawKeypoints (poseColor lowConfPose) lowConfPose.keypoints = [] := by
  have hmap : ∀ (f : Option ℚ → Option ℚ) (pose : Pose),
      isPerfectAngle (mapScores f pose) = isPerfectAngle pose := by
    intro f pose
    unfold isPerfectAngle
    rw [show (mapScores f pose).keypoints =
          pose.keypoints.map (fun kp => { kp with score := f kp.score }) from rfl,
        findKp_mapScores, findKp_mapScores, findKp_mapScores, findKp_mapScores]
    cases findKp pose.keypoints "left_shoulder" <;>
    cases findKp pose.keypoints "right_shoulder" <;>
    cases findKp pose.keypoints "left_hip" <;>
    cases findKp pose.keypoints "right_hip" <;>
    simp [Option.map]
  have f1 : findKp lowConfPose.keypoints "left_shoulder" =
      some ⟨"left_shoulder", 100, 100, some (3/10)⟩ := rfl
  have f2 : findKp lowConfPose.keypoints "right_shoulder" =
      some ⟨"right_shoulder", 200, 105, some (3/10)⟩ := rfl
  have f3 : findKp lowConfPose.keypoints "left_hip" =
      some ⟨"left_hip", 110, 200, some (3/10)⟩ := rfl
  have f4 : findKp lowConfPose.keypoints "right_hip" =
      some ⟨"right_hip", 190, 210, some (3/10)⟩ := rfl
  have hv : isPerfectAngle lowConfPose = true := by
    norm_num [isPerfectAngle, f1, f2, f3, f4]
  refine ⟨hmap, hv, by simp [poseColor, hv], ?_, ?_⟩
  · norm_num [lowConfPose, scoreOver]
  · rw [drawKeypoints_eq_filter]
    norm_num [lowConfPose, List.filter, scoreOver]

end PoseApp
